import Mathlib

/-
Verification of the WebDev session connection manager (server/index.ts).

The server core is modelled as a pure transition system over `ServerState`,
whose fields mirror the module-level registries of the source file:
`activePtys`, `activeConnections`, `activeWatchers`, `fileSubscribers`,
`sessionSubscribers`, plus the state of the external collaborators the spec
names (the tmux server session set, and the set of live pty processes).
JavaScript `Map`s are embedded as association lists keyed by strings
(insertion replaces the entry for an existing key, as `Map.set` does), and
`Set`s of sockets as duplicate-free lists of socket identifiers.
The session registry (`getSession` in server/lib/sessions.ts) is an external
lookup; handlers take it as a parameter, as the collaborator
interface `lookup(id) -> Session | absent` prescribes.
-/

namespace WebDev

/-- Client-to-server WebSocket messages, as parsed in the `ws.on("message")`
handlers of server/index.ts. A frame that fails to parse is `malformed`. -/
inductive ClientMsg where
  | input (data : String)
  | resize (cols rows : Nat)
  | subscribeFiles
  | malformed (raw : String)
  deriving Repr, DecidableEq

/-- Server-to-client WebSocket messages (`WSServerMessage` in server/types). -/
inductive ServerMsg where
  | output (data : String)
  | exit (code : Int)
  | error (message : String)
  | filesChanged
  | sessionsChanged
  deriving Repr, DecidableEq

/-- WebSocket ready states; `ws.readyState === WebSocket.OPEN` is the guard
used by `sendMessage` and `broadcastSessionsChanged`. -/
inductive ReadyState where
  | connecting
  | opened
  | closing
  | closed
  deriving Repr, DecidableEq

/-- A session record from the registry (server/lib/sessions.ts); the core
reads `directory`, `executable` and `options` during connection setup. -/
structure Session where
  name : String
  directory : String
  executable : String
  options : List String
  deriving Repr, DecidableEq

/-- Lookup in an association list, the embedding of JavaScript `Map.get`. -/
def lookupA {β : Type} : List (String × β) → String → Option β
  | [], _ => none
  | (k, v) :: rest, key => if k = key then some v else lookupA rest key

/-- Insert or replace in an association list, the embedding of `Map.set`:
an existing key keeps its position, a new key is appended. -/
def insertA {β : Type} : List (String × β) → String → β → List (String × β)
  | [], key, val => [(key, val)]
  | (k, v) :: rest, key, val =>
    if k = key then (key, val) :: rest else (k, v) :: insertA rest key val

/-- Remove a key from an association list, the embedding of `Map.delete`. -/
def eraseA {β : Type} : List (String × β) → String → List (String × β)
  | [], _ => []
  | (k, v) :: rest, key =>
    if k = key then eraseA rest key else (k, v) :: eraseA rest key

/-- Add an element to a set of sockets, the embedding of `Set.add`. -/
def addS (s : List Nat) (x : Nat) : List Nat :=
  if x ∈ s then s else s ++ [x]

/-- Remove an element from a set of sockets, the embedding of `Set.delete`. -/
def delS : List Nat → Nat → List Nat
  | [], _ => []
  | y :: rest, x => if y = x then delS rest x else y :: delS rest x

/-- The mutable top-level registries of server/index.ts, together with the
observable state of the two external resources the handlers act on: the tmux
server (set of named sessions) and the OS (set of live pty processes, plus a
fresh-id counter for spawns, and one for created watchers). -/
structure ServerState where
  activePtys : List (String × Nat)
  activeConnections : List Nat
  activeWatchers : List (String × Nat)
  fileSubscribers : List (String × List Nat)
  sessionSubscribers : List Nat
  tmuxSessions : List String
  ptyAlive : List Nat
  nextPty : Nat
  nextWatcher : Nat
  deriving Repr, DecidableEq

/-- The state at server start: every registry empty. -/
def initState : ServerState :=
  { activePtys := [], activeConnections := [], activeWatchers := [],
    fileSubscribers := [], sessionSubscribers := [], tmuxSessions := [],
    ptyAlive := [], nextPty := 0, nextWatcher := 0 }

/-- Deterministic tmux session name for a session id (server/index.ts). -/
def getTmuxName (sessionId : String) : String :=
  "webdev_" ++ sessionId

/-- The current file subscriber set for a session id (empty when absent). -/
def subscribersOf (st : ServerState) (sessionId : String) : List Nat :=
  (lookupA st.fileSubscribers sessionId).getD []

/-- FILES.WATCHER_DEBOUNCE_MS from server/lib/constants.ts. -/
def WATCHER_DEBOUNCE_MS : Nat := 300

/-- The `subscribeToFiles` function of server/index.ts: ensure a subscriber
set exists for the session and add the socket to it; then, if no watcher is
registered for the session, create one (chokidar `watch`) and register it. -/
def subscribeToFiles (ws : Nat) (sessionId : String) (st : ServerState) : ServerState :=
  let subs := addS ((lookupA st.fileSubscribers sessionId).getD []) ws
  let st1 := { st with fileSubscribers := insertA st.fileSubscribers sessionId subs }
  if (lookupA st1.activeWatchers sessionId).isSome then st1
  else
    { st1 with
      activeWatchers := insertA st1.activeWatchers sessionId st1.nextWatcher,
      nextWatcher := st1.nextWatcher + 1 }

/-- The `unsubscribeFromFiles` function of server/index.ts: if a subscriber
set exists, remove the socket; if the set became empty, close and deregister
the watcher (when present) and drop the subscriber-set entry. -/
def unsubscribeFromFiles (ws : Nat) (sessionId : String) (st : ServerState) : ServerState :=
  match lookupA st.fileSubscribers sessionId with
  | none => st
  | some subs0 =>
    let subs := delS subs0 ws
    if subs.length = 0 then
      let st1 :=
        if (lookupA st.activeWatchers sessionId).isSome then
          { st with activeWatchers := eraseA st.activeWatchers sessionId }
        else st
      { st1 with fileSubscribers := eraseA st1.fileSubscribers sessionId }
    else
      { st with fileSubscribers := insertA st.fileSubscribers sessionId subs }

/-- The `watcher.on("error")` handler of server/index.ts: it logs the error
and does nothing else; the returned log line records the `console.error`. -/
def handleWatcherError (sessionId : String) (st : ServerState) : ServerState × List String :=
  (st, ["File watcher error for session " ++ sessionId])

/-- Firing times of the trailing-debounce timer of the `watcher.on("all")`
handler: each raw event at time t clears any pending timer and arms one for
t + window; an event arriving strictly before the pending deadline cancels
it. The input is the time-ordered list of raw event times. -/
def fireTimes (window : Nat) : List Nat → List Nat
  | [] => []
  | [t] => [t + window]
  | t1 :: t2 :: rest =>
    if t2 < t1 + window then fireTimes window (t2 :: rest)
    else (t1 + window) :: fireTimes window (t2 :: rest)

/-- Notifications produced by the debounced handler for a raw event burst:
at each timer firing, one "files-changed" message per current subscriber.
Each pair is (delivery time, subscriber socket). -/
def debounceDeliveries (window : Nat) (events : List Nat) (subs : List Nat) :
    List (Nat × Nat) :=
  (fireTimes window events).flatMap (fun ft => subs.map (fun c => (ft, c)))

/-- The `sendMessage` helper of server/index.ts: the message is written only
when the socket is in the OPEN ready state, otherwise nothing is sent. -/
def sendMessage (readyState : ReadyState) (message : ServerMsg) : List ServerMsg :=
  if readyState = ReadyState.opened then [message] else []

/-- The exported `broadcastSessionsChanged` of server/index.ts: one
"sessions-changed" frame to every session-list subscriber whose socket is
OPEN. -/
def broadcastSessionsChanged (readyState : Nat → ReadyState) (st : ServerState) :
    List (Nat × ServerMsg) :=
  (st.sessionSubscribers.filter (fun ws => readyState ws = ReadyState.opened)).map
    (fun ws => (ws, ServerMsg.sessionsChanged))

/-- Delivery of a list of send intents (socket, message) through
`sendMessage`: intents to non-OPEN sockets are dropped. -/
def deliver (readyState : Nat → ReadyState) (intents : List (Nat × ServerMsg)) :
    List (Nat × ServerMsg) :=
  intents.flatMap (fun p => (sendMessage (readyState p.1) p.2).map (fun m => (p.1, m)))

/-- Result of a connection-open handler: the new state, the send intents
addressed to the new socket, whether the handler closed the socket, and for
a terminal connection the (socket, session id, pty) triple captured by its
close/exit closures, plus whether the tmux spawn attached to an existing
session (`new-session -A` semantics) rather than creating one. -/
structure ConnResult where
  st : ServerState
  sent : List (Nat × ServerMsg)
  closed : Bool
  binding : Option (Nat × String × Nat)
  attached : Bool
  deriving Repr, DecidableEq

/-- The `handleTerminalConnection` function of server/index.ts up to the
installation of the event handlers: look the session up in the registry; if
absent, send a single error and close; otherwise register the connection,
spawn a pty running `tmux new-session -A -s <name>` (attach when a tmux
session of that name exists, create it otherwise) and register the pty in
`activePtys` under the session id. -/
def handleTerminalConnection (sessions : List (String × Session)) (ws : Nat)
    (sessionId : String) (st : ServerState) : ConnResult :=
  match lookupA sessions sessionId with
  | none =>
    { st := st, sent := [(ws, ServerMsg.error "Session not found")], closed := true,
      binding := none, attached := false }
  | some _ =>
    let st1 := { st with activeConnections := addS st.activeConnections ws }
    let p := st1.nextPty
    if getTmuxName sessionId ∈ st1.tmuxSessions then
      let st2 := { st1 with
        nextPty := p + 1
        ptyAlive := addS st1.ptyAlive p
        activePtys := insertA st1.activePtys sessionId p }
      { st := st2, sent := [], closed := false, binding := some (ws, sessionId, p),
        attached := true }
    else
      let st2 := { st1 with
        nextPty := p + 1
        ptyAlive := addS st1.ptyAlive p
        tmuxSessions := st1.tmuxSessions ++ [getTmuxName sessionId]
        activePtys := insertA st1.activePtys sessionId p }
      { st := st2, sent := [], closed := false, binding := some (ws, sessionId, p),
        attached := false }

/-- The `ws.on("message")` handler of a terminal connection: resize and
input are relayed to the pty (no registry effect), "subscribe-files" invokes
`subscribeToFiles`, and a malformed frame is logged and ignored. -/
def handleTerminalMessage (ws : Nat) (sessionId : String) (msg : ClientMsg)
    (st : ServerState) : ServerState :=
  match msg with
  | ClientMsg.subscribeFiles => subscribeToFiles ws sessionId st
  | _ => st

/-- The `ws.on("close")` handler of a terminal connection: deregister the
socket, remove its file subscription, kill the pty captured by the closure
(`ptyProcess.kill()`; the tmux session is not touched) and delete the
`activePtys` entry for the session id. -/
def handleTerminalClose (ws : Nat) (sessionId : String) (ptyId : Nat)
    (st : ServerState) : ServerState :=
  let st1 := { st with activeConnections := delS st.activeConnections ws }
  let st2 := unsubscribeFromFiles ws sessionId st1
  let st3 := { st2 with ptyAlive := delS st2.ptyAlive ptyId }
  { st3 with activePtys := eraseA st3.activePtys sessionId }

/-- The `ptyProcess.onExit` handler: the process has exited (it is no longer
alive), the `activePtys` entry is deleted and an "exit" frame is sent to the
owning socket. -/
def handlePtyExit (ws : Nat) (sessionId : String) (ptyId : Nat) (exitCode : Int)
    (st : ServerState) : ServerState × List (Nat × ServerMsg) :=
  ({ st with activePtys := eraseA st.activePtys sessionId,
             ptyAlive := delS st.ptyAlive ptyId },
   [(ws, ServerMsg.exit exitCode)])

/-- The `handleFileSubscriptionConnection` function of server/index.ts up to
the installation of the event handlers: look the session up; if absent, send
a single error and close; otherwise only register the connection — no pty is
spawned and no watcher is created until a "subscribe-files" frame arrives. -/
def handleFileSubscriptionConnection (sessions : List (String × Session)) (ws : Nat)
    (sessionId : String) (st : ServerState) : ConnResult :=
  match lookupA sessions sessionId with
  | none =>
    { st := st, sent := [(ws, ServerMsg.error "Session not found")], closed := true,
      binding := none, attached := false }
  | some _ =>
    { st := { st with activeConnections := addS st.activeConnections ws },
      sent := [], closed := false, binding := none, attached := false }

/-- The `ws.on("message")` handler of a file-watch connection: only
"subscribe-files" has an effect; input, resize and malformed frames are
ignored. -/
def handleFilesMessage (ws : Nat) (sessionId : String) (msg : ClientMsg)
    (st : ServerState) : ServerState :=
  match msg with
  | ClientMsg.subscribeFiles => subscribeToFiles ws sessionId st
  | _ => st

/-- The `ws.on("close")` handler of a file-watch connection: deregister the
socket and remove its file subscription. -/
def handleFilesClose (ws : Nat) (sessionId : String) (st : ServerState) : ServerState :=
  let st1 := { st with activeConnections := delS st.activeConnections ws }
  unsubscribeFromFiles ws sessionId st1

/-- The classification the pathname of an upgrade request receives in the
`server.on("upgrade")` router. -/
inductive Route where
  | sessionsRoute
  | terminalRoute (sessionId : String)
  | filesRoute (sessionId : String)
  | notFound
  deriving Repr, DecidableEq

/-- Character-level test that the first list is an initial segment of the
second, the embedding of `String.startsWith` used by the upgrade router. -/
def isInitialSegment : List Char → List Char → Bool
  | [], _ => true
  | _ :: _, [] => false
  | a :: as, b :: bs => a = b && isInitialSegment as bs

/-- The path dispatch of the `server.on("upgrade")` router: an exact match
for the session-list path, the two registered path stems with the session id
taken from the remainder of the pathname, and a 404 rejection otherwise. -/
def route (pathname : String) : Route :=
  if pathname = "/ws/sessions" then Route.sessionsRoute
  else if isInitialSegment "/ws/terminal/".data pathname.data then
    Route.terminalRoute (String.mk (pathname.data.drop 13))
  else if isInitialSegment "/ws/files/".data pathname.data then
    Route.filesRoute (String.mk (pathname.data.drop 10))
  else Route.notFound

/-- Result of the upgrade router for one inbound socket. -/
structure UpgradeResult where
  st : ServerState
  rejected : Bool
  sent : List (Nat × ServerMsg)
  closed : Bool
  deriving Repr, DecidableEq

/-- The `server.on("upgrade")` handler: session-list sockets are added to
`sessionSubscribers`; terminal and file-watch paths are delegated to their
handlers; any other path is rejected with a 404 and the socket destroyed,
with no state change. -/
def handleUpgrade (sessions : List (String × Session)) (ws : Nat) (pathname : String)
    (st : ServerState) : UpgradeResult :=
  match route pathname with
  | Route.sessionsRoute =>
    { st := { st with sessionSubscribers := addS st.sessionSubscribers ws },
      rejected := false, sent := [], closed := false }
  | Route.terminalRoute sessionId =>
    let r := handleTerminalConnection sessions ws sessionId st
    { st := r.st, rejected := false, sent := r.sent, closed := r.closed }
  | Route.filesRoute sessionId =>
    let r := handleFileSubscriptionConnection sessions ws sessionId st
    { st := r.st, rejected := false, sent := r.sent, closed := r.closed }
  | Route.notFound =>
    { st := st, rejected := true, sent := [], closed := true }

/-- The resources acted on by the `shutdown` function of server/index.ts:
it kills every pty in `activePtys`, closes every socket in
`activeConnections` and closes every watcher in `activeWatchers`. -/
structure ShutdownEffects where
  killedPtys : List Nat
  closedConnections : List Nat
  closedWatchers : List Nat
  deriving Repr, DecidableEq

/-- The effect of the `shutdown` function, as the lists of resources it acts on. -/
def shutdown (st : ServerState) : ShutdownEffects :=
  { killedPtys := st.activePtys.map Prod.snd,
    closedConnections := st.activeConnections,
    closedWatchers := st.activeWatchers.map Prod.snd }

/-- A subscribe or unsubscribe call on the file-watch fan-out. -/
inductive FOp where
  | sub (ws : Nat) (sessionId : String)
  | unsub (ws : Nat) (sessionId : String)
  deriving Repr, DecidableEq

/-- Apply one subscribe/unsubscribe call. -/
def applyFOp (st : ServerState) : FOp → ServerState
  | FOp.sub ws sid => subscribeToFiles ws sid st
  | FOp.unsub ws sid => unsubscribeFromFiles ws sid st

/-- Run a sequence of subscribe/unsubscribe calls from server start. -/
def runFOps (ops : List FOp) : ServerState :=
  ops.foldl applyFOp initState

/-- The pty-related portion of the state: the `activePtys` registry, the set
of live pty processes, and the spawn counter. -/
def ptyFootprint (st : ServerState) : List (String × Nat) × List Nat × Nat :=
  (st.activePtys, st.ptyAlive, st.nextPty)

/-- The watcher/subscriber registries are consistent: at most one watcher
per session id, and a watcher is registered for a session exactly when that
subscriber set of that session is nonempty. -/
def watcherInv (st : ServerState) : Prop :=
  ((st.activeWatchers.map Prod.fst).Nodup) ∧
  ∀ sid : String, (lookupA st.activeWatchers sid).isSome ↔ subscribersOf st sid ≠ []

/-- A one-session registry used for concrete runs. -/
def demoSessions : List (String × Session) :=
  [("s1", { name := "demo", directory := "/tmp/demo", executable := "claude",
            options := [] })]

/-- Concrete run: a first terminal connection (socket 1) opens for session
"s1"; its close/exit closures capture pty 0. -/
def demoOpenFirst : ConnResult :=
  handleTerminalConnection demoSessions 1 "s1" initState

/-- Concrete run: a second terminal connection (socket 2) opens for the same
session "s1" while the first is still open; its closures capture pty 1. -/
def demoOpenSecond : ConnResult :=
  handleTerminalConnection demoSessions 2 "s1" demoOpenFirst.st

/-- Concrete run: the first connection closes; its close handler kills its
own pty 0 and deletes the activePtys entry for "s1". -/
def demoCloseFirst : ServerState :=
  handleTerminalClose 1 "s1" 0 demoOpenSecond.st

/-- Lookup after insert at the inserted key. -/
theorem lookupA_insertA_self {β : Type} (m : List (String × β)) (k : String) (v : β) :
    lookupA (insertA m k v) k = some v := by
  induction m with
  | nil => simp [insertA, lookupA]
  | cons hd rest ih =>
    obtain ⟨a, b⟩ := hd
    by_cases h : a = k
    · simp [insertA, h, lookupA]
    · simp [insertA, h, lookupA, ih]

/-- Lookup after insert at a different key. -/
theorem lookupA_insertA_ne {β : Type} (m : List (String × β)) (k k2 : String) (v : β)
    (h : k2 ≠ k) : lookupA (insertA m k v) k2 = lookupA m k2 := by
  induction m with
  | nil => simp [insertA, lookupA, Ne.symm h]
  | cons hd rest ih =>
    obtain ⟨a, b⟩ := hd
    by_cases ha : a = k
    · subst ha
      simp [insertA, lookupA, Ne.symm h]
    · simp [insertA, ha, lookupA, ih]

/-- Lookup after erase at the erased key. -/
theorem lookupA_eraseA_self {β : Type} (m : List (String × β)) (k : String) :
    lookupA (eraseA m k) k = none := by
  induction m with
  | nil => simp [eraseA, lookupA]
  | cons hd rest ih =>
    obtain ⟨a, b⟩ := hd
    by_cases h : a = k
    · simp [eraseA, h, ih]
    · simp [eraseA, h, lookupA, ih]

/-- Lookup after erase at a different key. -/
theorem lookupA_eraseA_ne {β : Type} (m : List (String × β)) (k k2 : String)
    (h : k2 ≠ k) : lookupA (eraseA m k) k2 = lookupA m k2 := by
  induction m with
  | nil => simp [eraseA, lookupA]
  | cons hd rest ih =>
    obtain ⟨a, b⟩ := hd
    by_cases ha : a = k
    · subst ha
      simp [eraseA, lookupA, Ne.symm h, ih]
    · simp [eraseA, ha, lookupA, ih]

/-- Keys present after an insert. -/
theorem mem_keys_insertA {β : Type} (m : List (String × β)) (k k2 : String) (v : β) :
    k2 ∈ (insertA m k v).map Prod.fst ↔ k2 ∈ m.map Prod.fst ∨ k2 = k := by
  induction m with
  | nil => simp [insertA]
  | cons hd rest ih =>
    obtain ⟨a, b⟩ := hd
    by_cases h : a = k
    · subst h
      simp [insertA]
      tauto
    · simp [insertA, h, ih]
      tauto

/-- Insert keeps association-list keys duplicate-free. -/
theorem keys_insertA_nodup {β : Type} (m : List (String × β)) (k : String) (v : β)
    (h : (m.map Prod.fst).Nodup) : ((insertA m k v).map Prod.fst).Nodup := by
  induction m with
  | nil => simp [insertA]
  | cons hd rest ih =>
    obtain ⟨a, b⟩ := hd
    simp only [List.map_cons, List.nodup_cons] at h
    by_cases ha : a = k
    · subst ha
      simpa [insertA] using h
    · simp only [insertA, if_neg ha, List.map_cons, List.nodup_cons]
      refine ⟨?_, ih h.2⟩
      intro hmem
      rcases (mem_keys_insertA rest k a v).mp hmem with hin | heq
      · exact h.1 hin
      · exact ha heq

/-- Keys present after an erase were present before. -/
theorem mem_keys_eraseA {β : Type} (m : List (String × β)) (k k2 : String)
    (h : k2 ∈ (eraseA m k).map Prod.fst) : k2 ∈ m.map Prod.fst := by
  induction m with
  | nil => simp [eraseA] at h
  | cons hd rest ih =>
    obtain ⟨a, b⟩ := hd
    by_cases ha : a = k
    · simp only [eraseA, if_pos ha] at h
      simp [ih h]
    · simp only [eraseA, if_neg ha, List.map_cons, List.mem_cons] at h
      rcases h with h | h
      · simp [h]
      · simp [ih h]

/-- Erase keeps association-list keys duplicate-free. -/
theorem keys_eraseA_nodup {β : Type} (m : List (String × β)) (k : String)
    (h : (m.map Prod.fst).Nodup) : ((eraseA m k).map Prod.fst).Nodup := by
  induction m with
  | nil => simp [eraseA]
  | cons hd rest ih =>
    obtain ⟨a, b⟩ := hd
    simp only [List.map_cons, List.nodup_cons] at h
    by_cases ha : a = k
    · simp only [eraseA, if_pos ha]
      exact ih h.2
    · simp only [eraseA, if_neg ha, List.map_cons, List.nodup_cons]
      exact ⟨fun hmem => h.1 (mem_keys_eraseA rest k a hmem), ih h.2⟩

/-- Membership in a socket set after a delete. -/
theorem mem_delS (l : List Nat) (x y : Nat) : y ∈ delS l x ↔ y ∈ l ∧ y ≠ x := by
  induction l with
  | nil => simp [delS]
  | cons hd rest ih =>
    by_cases h : hd = x
    · subst h
      simp only [delS, if_pos rfl, List.mem_cons, ih]
      tauto
    · simp only [delS, if_neg h, List.mem_cons, ih]
      constructor
      · rintro (rfl | hy)
        · exact ⟨Or.inl rfl, h⟩
        · exact ⟨Or.inr hy.1, hy.2⟩
      · rintro ⟨hy | hy, hne⟩
        · exact Or.inl hy
        · exact Or.inr ⟨hy, hne⟩

/-- The deleted socket is gone after a delete. -/
theorem not_mem_delS_self (l : List Nat) (x : Nat) : x ∉ delS l x := by
  intro h
  exact ((mem_delS l x x).mp h).2 rfl

/-- Deleting a socket that is not present does nothing. -/
theorem delS_of_not_mem (l : List Nat) (x : Nat) (h : x ∉ l) : delS l x = l := by
  induction l with
  | nil => simp [delS]
  | cons hd rest ih =>
    simp only [List.mem_cons] at h
    push_neg at h
    simp [delS, Ne.symm h.1, ih h.2]

/-- Deleting the same socket twice is the same as deleting it once. -/
theorem delS_delS (l : List Nat) (x : Nat) : delS (delS l x) x = delS l x :=
  delS_of_not_mem (delS l x) x (not_mem_delS_self l x)

/-- The result of an add is never empty. -/
theorem addS_ne_nil (l : List Nat) (x : Nat) : addS l x ≠ [] := by
  by_cases h : x ∈ l
  · simp only [addS, if_pos h]
    rintro rfl
    simp at h
  · simp [addS, if_neg h]

/-- Membership in a socket set after an add. -/
theorem mem_addS (l : List Nat) (x y : Nat) : y ∈ addS l x ↔ y ∈ l ∨ y = x := by
  by_cases h : x ∈ l
  · simp only [addS, if_pos h]
    constructor
    · exact Or.inl
    · rintro (hy | rfl)
      · exact hy
      · exact h
  · simp [addS, if_neg h]

/-- Inserting at a key twice leaves the second value, as a single insert would. -/
theorem insertA_insertA {β : Type} (m : List (String × β)) (k : String) (v w : β) :
    insertA (insertA m k v) k w = insertA m k w := by
  induction m with
  | nil => simp [insertA]
  | cons hd rest ih =>
    obtain ⟨a, b⟩ := hd
    by_cases h : a = k
    · simp [insertA, h]
    · simp [insertA, h, ih]

/-- Fields of the state not touched by `subscribeToFiles`. -/
theorem subscribeToFiles_frame (ws : Nat) (sid : String) (st : ServerState) :
    (subscribeToFiles ws sid st).activePtys = st.activePtys ∧
    (subscribeToFiles ws sid st).ptyAlive = st.ptyAlive ∧
    (subscribeToFiles ws sid st).nextPty = st.nextPty ∧
    (subscribeToFiles ws sid st).activeConnections = st.activeConnections ∧
    (subscribeToFiles ws sid st).sessionSubscribers = st.sessionSubscribers ∧
    (subscribeToFiles ws sid st).tmuxSessions = st.tmuxSessions := by
  by_cases hw : (lookupA st.activeWatchers sid).isSome <;>
    simp [subscribeToFiles, hw]

/-- Fields of the state not touched by `unsubscribeFromFiles`. -/
theorem unsubscribeFromFiles_frame (ws : Nat) (sid : String) (st : ServerState) :
    (unsubscribeFromFiles ws sid st).activePtys = st.activePtys ∧
    (unsubscribeFromFiles ws sid st).ptyAlive = st.ptyAlive ∧
    (unsubscribeFromFiles ws sid st).nextPty = st.nextPty ∧
    (unsubscribeFromFiles ws sid st).activeConnections = st.activeConnections ∧
    (unsubscribeFromFiles ws sid st).sessionSubscribers = st.sessionSubscribers ∧
    (unsubscribeFromFiles ws sid st).tmuxSessions = st.tmuxSessions ∧
    (unsubscribeFromFiles ws sid st).nextWatcher = st.nextWatcher := by
  cases hf : lookupA st.fileSubscribers sid with
  | none => simp [unsubscribeFromFiles, hf]
  | some subs0 =>
    by_cases hlen : (delS subs0 ws).length = 0
    · by_cases hw : (lookupA st.activeWatchers sid).isSome <;>
        simp [unsubscribeFromFiles, hf, hlen, hw]
    · simp [unsubscribeFromFiles, hf, hlen]

/-- The file-watch fan-out invariant holds at server start. -/
theorem watcherInv_init : watcherInv initState := by
  refine ⟨by simp [initState], ?_⟩
  intro sid
  simp [initState, lookupA, subscribersOf]

/-- The file-watch fan-out invariant is preserved by `subscribeToFiles`. -/
theorem watcherInv_subscribe (ws : Nat) (sid : String) (st : ServerState)
    (h : watcherInv st) : watcherInv (subscribeToFiles ws sid st) := by
  obtain ⟨hnodup, hiff⟩ := h
  by_cases hw : (lookupA st.activeWatchers sid).isSome
  · refine ⟨?_, ?_⟩
    · simpa [subscribeToFiles, hw] using hnodup
    · intro sid2
      by_cases hs : sid2 = sid
      · subst hs
        simp [subscribeToFiles, hw, subscribersOf, lookupA_insertA_self,
          addS_ne_nil]
      · simp [subscribeToFiles, hw, subscribersOf,
          lookupA_insertA_ne _ _ _ _ hs]
        simpa [subscribersOf] using hiff sid2
  · refine ⟨?_, ?_⟩
    · simpa [subscribeToFiles, hw] using keys_insertA_nodup _ _ _ hnodup
    · intro sid2
      by_cases hs : sid2 = sid
      · subst hs
        simp [subscribeToFiles, hw, subscribersOf, lookupA_insertA_self,
          addS_ne_nil]
      · simp [subscribeToFiles, hw, subscribersOf,
          lookupA_insertA_ne _ _ _ _ hs]
        simpa [subscribersOf] using hiff sid2

/-- The file-watch fan-out invariant is preserved by `unsubscribeFromFiles`. -/
theorem watcherInv_unsubscribe (ws : Nat) (sid : String) (st : ServerState)
    (h : watcherInv st) : watcherInv (unsubscribeFromFiles ws sid st) := by
  obtain ⟨hnodup, hiff⟩ := h
  cases hf : lookupA st.fileSubscribers sid with
  | none => simpa [unsubscribeFromFiles, hf] using ⟨hnodup, hiff⟩
  | some subs0 =>
    by_cases hlen : (delS subs0 ws).length = 0
    · by_cases hw : (lookupA st.activeWatchers sid).isSome
      · refine ⟨?_, ?_⟩
        · simpa [unsubscribeFromFiles, hf, hlen, hw] using
            keys_eraseA_nodup _ _ hnodup
        · intro sid2
          by_cases hs : sid2 = sid
          · subst hs
            simp [unsubscribeFromFiles, hf, hlen, hw, subscribersOf,
              lookupA_eraseA_self]
          · simp [unsubscribeFromFiles, hf, hlen, hw, subscribersOf,
              lookupA_eraseA_ne _ _ _ hs]
            simpa [subscribersOf] using hiff sid2
      · refine ⟨?_, ?_⟩
        · simpa [unsubscribeFromFiles, hf, hlen, hw] using hnodup
        · intro sid2
          by_cases hs : sid2 = sid
          · subst hs
            simp [unsubscribeFromFiles, hf, hlen, hw, subscribersOf,
              lookupA_eraseA_self]
          · simp [unsubscribeFromFiles, hf, hlen, hw, subscribersOf,
              lookupA_eraseA_ne _ _ _ hs]
            simpa [subscribersOf] using hiff sid2
    · refine ⟨?_, ?_⟩
      · simpa [unsubscribeFromFiles, hf, hlen] using hnodup
      · intro sid2
        by_cases hs : sid2 = sid
        · subst hs
          have hsub0 : subs0 ≠ [] := by
            intro hnil
            subst hnil
            simp [delS] at hlen
          have hsome : (lookupA st.activeWatchers sid2).isSome := by
            rw [hiff sid2]
            simpa [subscribersOf, hf] using hsub0
          simp [unsubscribeFromFiles, hf, hlen, subscribersOf,
            lookupA_insertA_self, hsome]
          intro hnil
          exact hlen (by simp [hnil])
        · simp [unsubscribeFromFiles, hf, hlen, subscribersOf,
            lookupA_insertA_ne _ _ _ _ hs]
          simpa [subscribersOf] using hiff sid2

/-- The file-watch fan-out invariant is preserved by any call sequence. -/
theorem watcherInv_foldl (ops : List FOp) (st : ServerState) (h : watcherInv st) :
    watcherInv (ops.foldl applyFOp st) := by
  induction ops generalizing st with
  | nil => exact h
  | cons op rest ih =>
    cases op with
    | sub ws sid => exact ih _ (watcherInv_subscribe ws sid st h)
    | unsub ws sid => exact ih _ (watcherInv_unsubscribe ws sid st h)

/-- Every state reachable by subscribe/unsubscribe calls satisfies the
file-watch fan-out invariant. -/
theorem watcherInv_run (ops : List FOp) : watcherInv (runFOps ops) :=
  watcherInv_foldl ops initState watcherInv_init

/-- Under the invariant, a subscribe call creates a watcher (consumes a
fresh watcher id) exactly when the session had no subscriber. -/
theorem subscribe_creates_iff (ws : Nat) (sid : String) (st : ServerState)
    (h : watcherInv st) :
    ((subscribeToFiles ws sid st).nextWatcher = st.nextWatcher + 1 ↔
      subscribersOf st sid = []) := by
  obtain ⟨-, hiff⟩ := h
  by_cases hw : (lookupA st.activeWatchers sid).isSome
  · have hne : subscribersOf st sid ≠ [] := (hiff sid).mp hw
    simp only [subscribeToFiles, hw, if_true]
    constructor
    · intro heq
      omega
    · intro heq
      exact absurd heq hne
  · have h0 : subscribersOf st sid = [] := by
      by_contra hne
      exact hw ((hiff sid).mpr hne)
    simp [subscribeToFiles, hw, h0]

/-- Under the invariant, an unsubscribe call leaves no watcher registered
for the session exactly when the subscriber set becomes empty. -/
theorem unsubscribe_destroys_iff (ws : Nat) (sid : String) (st : ServerState)
    (h : watcherInv st) :
    (lookupA (unsubscribeFromFiles ws sid st).activeWatchers sid = none ↔
      delS (subscribersOf st sid) ws = []) := by
  obtain ⟨-, hiff⟩ := h
  cases hf : lookupA st.fileSubscribers sid with
  | none =>
    have h0 : subscribersOf st sid = [] := by simp [subscribersOf, hf]
    have hnone : lookupA st.activeWatchers sid = none := by
      have hns : ¬(lookupA st.activeWatchers sid).isSome := by
        rw [hiff sid, h0]
        simp
      exact Option.not_isSome_iff_eq_none.mp hns
    simp [unsubscribeFromFiles, hf, h0, hnone, delS]
  | some subs0 =>
    have hso : subscribersOf st sid = subs0 := by simp [subscribersOf, hf]
    by_cases hlen : (delS subs0 ws).length = 0
    · have hnil : delS subs0 ws = [] := List.length_eq_zero.mp hlen
      by_cases hw : (lookupA st.activeWatchers sid).isSome
      · simp [unsubscribeFromFiles, hf, hlen, hw, lookupA_eraseA_self, hso, hnil]
      · have hnone : lookupA st.activeWatchers sid = none :=
          Option.not_isSome_iff_eq_none.mp hw
        simp [unsubscribeFromFiles, hf, hlen, hw, hnone, hso, hnil]
    · have hnnil : delS subs0 ws ≠ [] := fun hh => hlen (by simp [hh])
      have hsub0 : subs0 ≠ [] := by
        intro hh
        subst hh
        simp [delS] at hlen
      have hsome : (lookupA st.activeWatchers sid).isSome := by
        rw [hiff sid, hso]
        exact hsub0
      have hne : lookupA st.activeWatchers sid ≠ none :=
        Option.isSome_iff_ne_none.mp hsome
      simp [unsubscribeFromFiles, hf, hlen, hso, hnnil, hne]

/-- C2: for every session id and every sequence of subscribe and
unsubscribe calls, at most one Watcher exists per session id (the watcher
registry keys are duplicate-free); a watcher is registered for a session
exactly when its subscriber set is nonempty; a subscribe call creates a new
watcher exactly when it adds the first subscriber; and an unsubscribe call
leaves the session without a watcher exactly when it empties the subscriber
set. -/
theorem watcher_registry_correct (ops : List FOp) :
    (((runFOps ops).activeWatchers.map Prod.fst).Nodup) ∧
    (∀ sid : String, (lookupA (runFOps ops).activeWatchers sid).isSome ↔
      subscribersOf (runFOps ops) sid ≠ []) ∧
    (∀ ws : Nat, ∀ sid : String,
      ((subscribeToFiles ws sid (runFOps ops)).nextWatcher =
          (runFOps ops).nextWatcher + 1 ↔
        subscribersOf (runFOps ops) sid = [])) ∧
    (∀ ws : Nat, ∀ sid : String,
      (lookupA (unsubscribeFromFiles ws sid (runFOps ops)).activeWatchers sid = none ↔
        delS (subscribersOf (runFOps ops) sid) ws = [])) := by
  refine ⟨(watcherInv_run ops).1, (watcherInv_run ops).2, ?_, ?_⟩
  · intro ws sid
    exact subscribe_creates_iff ws sid (runFOps ops) (watcherInv_run ops)
  · intro ws sid
    exact unsubscribe_destroys_iff ws sid (runFOps ops) (watcherInv_run ops)

/-- C8: unsubscribing the same connection from the same session twice gives
the same state as unsubscribing once — in particular, the second call is a
no-op also when the first one emptied the subscriber set and destroyed the
watcher, so it finds no map entry. The operation is a total function of the
state, so no call can throw. -/
theorem unsubscribe_idempotent (ws : Nat) (sessionId : String) (st : ServerState) :
    unsubscribeFromFiles ws sessionId (unsubscribeFromFiles ws sessionId st) =
      unsubscribeFromFiles ws sessionId st := by
  cases hf : lookupA st.fileSubscribers sessionId with
  | none => simp [unsubscribeFromFiles, hf]
  | some subs0 =>
    by_cases hlen : (delS subs0 ws).length = 0
    · by_cases hw : (lookupA st.activeWatchers sessionId).isSome <;>
        simp [unsubscribeFromFiles, hf, hlen, hw, lookupA_eraseA_self]
    · simp [unsubscribeFromFiles, hf, hlen, lookupA_insertA_self, delS_delS,
        insertA_insertA]

/-- The effect of the terminal close handler on each state field. -/
theorem handleTerminalClose_fields (ws : Nat) (sid : String) (ptyId : Nat)
    (st : ServerState) :
    (handleTerminalClose ws sid ptyId st).ptyAlive = delS st.ptyAlive ptyId ∧
    (handleTerminalClose ws sid ptyId st).activePtys = eraseA st.activePtys sid ∧
    (handleTerminalClose ws sid ptyId st).tmuxSessions = st.tmuxSessions ∧
    (handleTerminalClose ws sid ptyId st).fileSubscribers =
      (unsubscribeFromFiles ws sid
        { st with activeConnections := delS st.activeConnections ws }).fileSubscribers ∧
    (handleTerminalClose ws sid ptyId st).activeConnections =
      delS st.activeConnections ws := by
  have hfr := unsubscribeFromFiles_frame ws sid
    { st with activeConnections := delS st.activeConnections ws }
  simp only [handleTerminalClose]
  exact ⟨by simp [hfr.2.1], by simp [hfr.1], by simp [hfr.2.2.2.2.2.1],
    by trivial, by simp [hfr.2.2.2.1]⟩

/-- After an unsubscribe, the connection is no longer a subscriber of the
session. -/
theorem not_subscriber_after_unsubscribe (ws : Nat) (sid : String) (st : ServerState) :
    ws ∉ subscribersOf (unsubscribeFromFiles ws sid st) sid := by
  cases hf : lookupA st.fileSubscribers sid with
  | none => simp [unsubscribeFromFiles, hf, subscribersOf]
  | some subs0 =>
    by_cases hlen : (delS subs0 ws).length = 0
    · by_cases hw : (lookupA st.activeWatchers sid).isSome <;>
        simp [unsubscribeFromFiles, hf, hlen, hw, subscribersOf,
          lookupA_eraseA_self]
    · simp [unsubscribeFromFiles, hf, hlen, subscribersOf,
        lookupA_insertA_self]
      exact fun h => absurd rfl ((mem_delS subs0 ws ws).mp h).2

/-- C1 counterexample: with two Terminal connections open concurrently for
session "s1" (socket 1 owning pty 0, socket 2 owning pty 1), the
activePtys registry — keyed by session id — holds only the pty of connection 2,
and closing connection 1 deletes that entry even though pty 1 is still
alive: closing one connection deregisters the process belonging to the
other, contradicting the claim. -/
theorem pty_deregistered_by_other_close :
    demoOpenFirst.binding = some (1, "s1", 0) ∧
    demoOpenSecond.binding = some (2, "s1", 1) ∧
    lookupA demoOpenSecond.st.activePtys "s1" = some 1 ∧
    1 ∈ demoOpenSecond.st.ptyAlive ∧
    lookupA demoCloseFirst.activePtys "s1" = none ∧
    1 ∈ demoCloseFirst.ptyAlive := by
  decide

/-- C1 (amended): the pseudo-terminal process of a Terminal connection is
terminated when that connection closes (and only that process: any other
live pty survives the close untouched), and the activePtys entry for the
session id is removed on close and on process exit. However, the registry
is keyed by session id, so when two Terminal connections are open for the
same session id, closing either connection removes the single registry
entry for that id — deregistering (though not killing) the process
belonging to the other connection. -/
theorem pty_close_kills_own_only (ws : Nat) (sessionId : String) (ptyId : Nat)
    (st : ServerState) :
    (∀ p : Nat, p ≠ ptyId →
      (p ∈ (handleTerminalClose ws sessionId ptyId st).ptyAlive ↔ p ∈ st.ptyAlive)) ∧
    ptyId ∉ (handleTerminalClose ws sessionId ptyId st).ptyAlive ∧
    lookupA (handleTerminalClose ws sessionId ptyId st).activePtys sessionId = none ∧
    lookupA (handlePtyExit ws sessionId ptyId 0 st).1.activePtys sessionId = none := by
  have hfields := handleTerminalClose_fields ws sessionId ptyId st
  refine ⟨?_, ?_, ?_, ?_⟩
  · intro p hp
    rw [hfields.1, mem_delS]
    exact ⟨fun h => h.1, fun h => ⟨h, hp⟩⟩
  · rw [hfields.1]
    exact not_mem_delS_self st.ptyAlive ptyId
  · rw [hfields.2.1]
    exact lookupA_eraseA_self st.activePtys sessionId
  · simp [handlePtyExit, lookupA_eraseA_self]

/-- C4: when the socket of a Terminal connection closes, its pty is terminated
unconditionally, its file-watch subscription (if any) is removed, and the
tmux session set is left unchanged; a subsequent Terminal connection for
the same session id therefore finds the tmux session still present and
attaches to it (tmux new-session -A semantics). -/
theorem detach_not_kill (sessions : List (String × Session)) (ws ws2 : Nat)
    (sessionId : String) (ptyId : Nat) (st : ServerState)
    (hsess : (lookupA sessions sessionId).isSome)
    (htmux : getTmuxName sessionId ∈ st.tmuxSessions) :
    ptyId ∉ (handleTerminalClose ws sessionId ptyId st).ptyAlive ∧
    ws ∉ subscribersOf (handleTerminalClose ws sessionId ptyId st) sessionId ∧
    (handleTerminalClose ws sessionId ptyId st).tmuxSessions = st.tmuxSessions ∧
    (handleTerminalConnection sessions ws2 sessionId
      (handleTerminalClose ws sessionId ptyId st)).attached = true ∧
    (handleTerminalConnection sessions ws2 sessionId
      (handleTerminalClose ws sessionId ptyId st)).st.tmuxSessions =
      st.tmuxSessions := by
  have hfields := handleTerminalClose_fields ws sessionId ptyId st
  obtain ⟨sess, hs⟩ := Option.isSome_iff_exists.mp hsess
  have htm2 : getTmuxName sessionId ∈
      (handleTerminalClose ws sessionId ptyId st).tmuxSessions := by
    rw [hfields.2.2.1]
    exact htmux
  refine ⟨?_, ?_, hfields.2.2.1, ?_, ?_⟩
  · rw [hfields.1]
    exact not_mem_delS_self st.ptyAlive ptyId
  · have h2 := not_subscriber_after_unsubscribe ws sessionId
      { st with activeConnections := delS st.activeConnections ws }
    simpa [subscribersOf, hfields.2.2.2.1] using h2
  · simp [handleTerminalConnection, hs, htm2]
  · simp [handleTerminalConnection, hs, htm2, hfields.2.2.1, htmux]

/-- A time-ordered run starting at t ends no earlier than t. -/
theorem le_getLastD_of_sorted (t : Nat) (ts : List Nat)
    (h : List.Chain (fun a b => a ≤ b) t ts) : t ≤ ts.getLastD t := by
  induction ts generalizing t with
  | nil => simp
  | cons t2 rest ih =>
    rcases List.chain_cons.mp h with ⟨h1, h2⟩
    rw [List.getLastD_cons]
    exact le_trans h1 (ih t2 h2)

/-- In a time-ordered burst whose last event falls inside the debounce
window of the first, every event arrives before the deadline armed by its
predecessor. -/
theorem chain_window_of_span (window t : Nat) (ts : List Nat)
    (hsorted : List.Chain (fun a b => a ≤ b) t ts)
    (hspan : ts.getLastD t < t + window) :
    List.Chain (fun a b => b < a + window) t ts := by
  induction ts generalizing t with
  | nil => simp
  | cons t2 rest ih =>
    rcases List.chain_cons.mp hsorted with ⟨h1, h2⟩
    rw [List.getLastD_cons] at hspan
    have hlast : t2 ≤ rest.getLastD t2 := le_getLastD_of_sorted t2 rest h2
    refine List.chain_cons.mpr ⟨lt_of_le_of_lt hlast hspan, ?_⟩
    exact ih t2 h2 (lt_of_lt_of_le hspan (by omega))

/-- When every raw event of a nonempty burst arrives before the pending
debounce deadline, the timer fires exactly once, one window after the last
event. -/
theorem fireTimes_of_chain (window t : Nat) (ts : List Nat)
    (h : List.Chain (fun a b => b < a + window) t ts) :
    fireTimes window (t :: ts) = [ts.getLastD t + window] := by
  induction ts generalizing t with
  | nil => simp [fireTimes]
  | cons t2 rest ih =>
    rcases List.chain_cons.mp h with ⟨h1, h2⟩
    rw [List.getLastD_cons]
    simpa [fireTimes, h1] using ih t2 h2

/-- C3: for a session with subscribers, a burst of raw filesystem events
that is time-ordered and whose last event still falls within the debounce
window opened by the first (so every event restarts, rather than stacks,
the pending timer) produces exactly one firing of the debounced handler, at
one window after the last event of the burst, and that firing emits exactly
one "files-changed" notification per current subscriber. -/
theorem debounce_burst_single_notification (t : Nat) (ts : List Nat)
    (subs : List Nat)
    (hsorted : List.Chain (fun a b => a ≤ b) t ts)
    (hspan : ts.getLastD t < t + WATCHER_DEBOUNCE_MS) :
    fireTimes WATCHER_DEBOUNCE_MS (t :: ts) = [ts.getLastD t + WATCHER_DEBOUNCE_MS] ∧
    debounceDeliveries WATCHER_DEBOUNCE_MS (t :: ts) subs =
      subs.map (fun c => (ts.getLastD t + WATCHER_DEBOUNCE_MS, c)) ∧
    (debounceDeliveries WATCHER_DEBOUNCE_MS (t :: ts) subs).map Prod.snd = subs := by
  have hchain := chain_window_of_span WATCHER_DEBOUNCE_MS t ts hsorted hspan
  have hf := fireTimes_of_chain WATCHER_DEBOUNCE_MS t ts hchain
  refine ⟨hf, ?_, ?_⟩
  · simp [debounceDeliveries, hf]
  · simp [debounceDeliveries, hf]

/-- C3 witness: a concrete burst at times 0, 100, 250 with subscribers
1 and 2 yields one firing at 550 and one notification per subscriber. -/
theorem debounce_burst_single_notification_witness :
    fireTimes WATCHER_DEBOUNCE_MS (0 :: [100, 250]) =
      [[100, 250].getLastD 0 + WATCHER_DEBOUNCE_MS] ∧
    debounceDeliveries WATCHER_DEBOUNCE_MS (0 :: [100, 250]) [1, 2] =
      [1, 2].map (fun c => ([100, 250].getLastD 0 + WATCHER_DEBOUNCE_MS, c)) ∧
    (debounceDeliveries WATCHER_DEBOUNCE_MS (0 :: [100, 250]) [1, 2]).map Prod.snd =
      [1, 2] :=
  debounce_burst_single_notification 0 [100, 250] [1, 2]
    (List.Chain.cons (by decide) (List.Chain.cons (by decide) List.Chain.nil))
    (by decide)

/-- C5 counterexample: with a watcher registered for session "s1", the
watcher error handler leaves the state — in particular the activeWatchers
entry for "s1" — unchanged, contradicting the claim that the entry is
removed on error. -/
theorem watcher_error_keeps_entry :
    (lookupA (subscribeToFiles 4 "s1" initState).activeWatchers "s1").isSome = true ∧
    (handleWatcherError "s1" (subscribeToFiles 4 "s1" initState)).1 =
      subscribeToFiles 4 "s1" initState ∧
    (lookupA (handleWatcherError "s1"
        (subscribeToFiles 4 "s1" initState)).1.activeWatchers "s1").isSome = true := by
  decide

/-- C5 (amended): on a filesystem watcher error the error is logged, and
nothing else happens: the state — the watcher registry and the subscriber
sets included — is left unchanged, so the watcher entry of the session remains
registered (and a later resubscribe consequently does not recreate the
watcher while the entry is present). -/
theorem watcher_error_logged_only (sessionId : String) (st : ServerState) :
    (handleWatcherError sessionId st).1 = st ∧
    (handleWatcherError sessionId st).2 =
      ["File watcher error for session " ++ sessionId] :=
  ⟨rfl, rfl⟩

/-- C6 counterexample: a connection accepted on the session-list path is
added to sessionSubscribers but never to activeConnections, so it is not in
the active-connection set the shutdown loop closes — contradicting the
claim that every accepted connection is registered there. -/
theorem session_list_connection_not_registered :
    (handleUpgrade demoSessions 7 "/ws/sessions" initState).rejected = false ∧
    7 ∈ (handleUpgrade demoSessions 7 "/ws/sessions" initState).st.sessionSubscribers ∧
    7 ∉ (handleUpgrade demoSessions 7 "/ws/sessions" initState).st.activeConnections ∧
    7 ∉ (shutdown (handleUpgrade demoSessions 7 "/ws/sessions" initState).st).closedConnections := by
  decide

/-- C6 (amended): the router rejects an upgrade whose path matches none of
the three fixed prefixes with a terminal error before any resource is
allocated (the state is unchanged); terminal and file-watch connections
whose session id resolves are registered in the process-wide
active-connection set used by shutdown; a session-list connection, however,
is tracked only in the separate sessionSubscribers set and never enters
activeConnections. -/
theorem upgrade_router_registration (sessions : List (String × Session)) (ws : Nat)
    (pathname : String) (st : ServerState) :
    (route pathname = Route.notFound →
      handleUpgrade sessions ws pathname st =
        { st := st, rejected := true, sent := [], closed := true }) ∧
    (∀ sid : String, ∀ session : Session, route pathname = Route.terminalRoute sid →
      lookupA sessions sid = some session →
      ws ∈ (handleUpgrade sessions ws pathname st).st.activeConnections ∧
      ws ∈ (shutdown (handleUpgrade sessions ws pathname st).st).closedConnections) ∧
    (∀ sid : String, ∀ session : Session, route pathname = Route.filesRoute sid →
      lookupA sessions sid = some session →
      ws ∈ (handleUpgrade sessions ws pathname st).st.activeConnections ∧
      ws ∈ (shutdown (handleUpgrade sessions ws pathname st).st).closedConnections) ∧
    (route pathname = Route.sessionsRoute →
      ws ∈ (handleUpgrade sessions ws pathname st).st.sessionSubscribers ∧
      (handleUpgrade sessions ws pathname st).st.activeConnections =
        st.activeConnections) := by
  refine ⟨?_, ?_, ?_, ?_⟩
  · intro hr
    simp [handleUpgrade, hr]
  · intro sid session hr hs
    have hmem : ws ∈ addS st.activeConnections ws :=
      (mem_addS st.activeConnections ws ws).mpr (Or.inr rfl)
    by_cases ht : getTmuxName sid ∈ st.tmuxSessions <;>
      simp [handleUpgrade, hr, handleTerminalConnection, hs, ht, shutdown, hmem]
  · intro sid session hr hs
    have hmem : ws ∈ addS st.activeConnections ws :=
      (mem_addS st.activeConnections ws ws).mpr (Or.inr rfl)
    simp [handleUpgrade, hr, handleFileSubscriptionConnection, hs, shutdown, hmem]
  · intro hr
    refine ⟨?_, ?_⟩
    · simp [handleUpgrade, hr]
      exact (mem_addS st.sessionSubscribers ws ws).mpr (Or.inr rfl)
    · simp [handleUpgrade, hr]

/-- C6 witness: the router rejects the unknown path "/bogus" without state
change, and a session-list connection lands in sessionSubscribers while
activeConnections stays as it was. -/
theorem upgrade_router_registration_witness :
    handleUpgrade demoSessions 9 "/bogus" initState =
      { st := initState, rejected := true, sent := [], closed := true } ∧
    9 ∈ (handleUpgrade demoSessions 9 "/ws/sessions" initState).st.sessionSubscribers ∧
    9 ∈ (handleUpgrade demoSessions 9 "/ws/terminal/s1" initState).st.activeConnections :=
  ⟨(upgrade_router_registration demoSessions 9 "/bogus" initState).1 (by decide),
   ((upgrade_router_registration demoSessions 9 "/ws/sessions" initState).2.2.2
     (by decide)).1,
   ((upgrade_router_registration demoSessions 9 "/ws/terminal/s1" initState).2.1 "s1"
     { name := "demo", directory := "/tmp/demo", executable := "claude", options := [] }
     (by decide) (by decide)).1⟩

/-- C7: opening a Terminal or FileWatch connection for a session id absent
from the registry sends exactly one "error" event and closes the
connection, with the state unchanged: no pty is spawned, no watcher is
created, and the connection is not registered. -/
theorem unknown_session_single_error (sessions : List (String × Session)) (ws : Nat)
    (sessionId : String) (st : ServerState)
    (h : lookupA sessions sessionId = none) :
    handleTerminalConnection sessions ws sessionId st =
      { st := st, sent := [(ws, ServerMsg.error "Session not found")],
        closed := true, binding := none, attached := false } ∧
    handleFileSubscriptionConnection sessions ws sessionId st =
      { st := st, sent := [(ws, ServerMsg.error "Session not found")],
        closed := true, binding := none, attached := false } := by
  constructor <;>
    simp [handleTerminalConnection, handleFileSubscriptionConnection, h]

/-- C7 witness: session id "nope" is absent from the demo registry, and both
handlers send one error and close without touching the state. -/
theorem unknown_session_single_error_witness :
    handleTerminalConnection demoSessions 3 "nope" initState =
      { st := initState, sent := [(3, ServerMsg.error "Session not found")],
        closed := true, binding := none, attached := false } ∧
    handleFileSubscriptionConnection demoSessions 3 "nope" initState =
      { st := initState, sent := [(3, ServerMsg.error "Session not found")],
        closed := true, binding := none, attached := false } :=
  unknown_session_single_error demoSessions 3 "nope" initState (by decide)

/-- A message on a file-watch connection leaves the pty state untouched. -/
theorem handleFilesMessage_ptyFootprint (ws : Nat) (sid : String) (msg : ClientMsg)
    (st : ServerState) :
    ptyFootprint (handleFilesMessage ws sid msg st) = ptyFootprint st := by
  cases msg with
  | subscribeFiles =>
    have h := subscribeToFiles_frame ws sid st
    simp [handleFilesMessage, ptyFootprint, h.1, h.2.1, h.2.2.1]
  | input d => rfl
  | resize c r => rfl
  | malformed raw => rfl

/-- Any message sequence on a file-watch connection leaves the pty state
untouched. -/
theorem foldl_filesMessages_ptyFootprint (ws : Nat) (sid : String)
    (msgs : List ClientMsg) (st : ServerState) :
    ptyFootprint (msgs.foldl (fun s m => handleFilesMessage ws sid m s) st) =
      ptyFootprint st := by
  induction msgs generalizing st with
  | nil => rfl
  | cons m rest ih =>
    rw [List.foldl_cons, ih (handleFilesMessage ws sid m st),
      handleFilesMessage_ptyFootprint]

/-- C9: a connection accepted on the file-watch path never spawns a
pseudo-terminal process: its open handler, its message handler under any
sequence of client messages (input and resize included), and its close
handler all leave the activePtys registry, the set of live pty processes
and the pty spawn counter unchanged. -/
theorem files_connection_never_spawns_pty (sessions : List (String × Session))
    (ws : Nat) (sessionId : String) (msgs : List ClientMsg) (st : ServerState) :
    ptyFootprint (handleFileSubscriptionConnection sessions ws sessionId st).st =
      ptyFootprint st ∧
    ptyFootprint (msgs.foldl (fun s m => handleFilesMessage ws sessionId m s) st) =
      ptyFootprint st ∧
    ptyFootprint (handleFilesClose ws sessionId st) = ptyFootprint st := by
  refine ⟨?_, foldl_filesMessages_ptyFootprint ws sessionId msgs st, ?_⟩
  · cases hs : lookupA sessions sessionId <;>
      simp [handleFileSubscriptionConnection, hs, ptyFootprint]
  · have h := unsubscribeFromFiles_frame ws sessionId
      { st with activeConnections := delS st.activeConnections ws }
    simp [handleFilesClose, ptyFootprint, h.1, h.2.1, h.2.2.1]

/-- C10: a message is written to a socket only when the socket is OPEN:
`sendMessage` emits nothing on a socket in any other ready state, and every
delivered (socket, message) pair — through `sendMessage`-mediated delivery
or through the sessions-changed broadcast — has an OPEN recipient. -/
theorem send_requires_open_socket (readyState : Nat → ReadyState) (r : ReadyState)
    (m : ServerMsg) (intents : List (Nat × ServerMsg)) (st : ServerState)
    (c : Nat) (msg : ServerMsg) :
    (r ≠ ReadyState.opened → sendMessage r m = []) ∧
    (sendMessage r m ≠ [] → r = ReadyState.opened) ∧
    ((c, msg) ∈ deliver readyState intents → readyState c = ReadyState.opened) ∧
    ((c, msg) ∈ broadcastSessionsChanged readyState st →
      readyState c = ReadyState.opened) := by
  refine ⟨?_, ?_, ?_, ?_⟩
  · intro hr
    simp [sendMessage, hr]
  · intro hne
    by_contra hr
    exact hne (by simp [sendMessage, hr])
  · intro hmem
    rcases List.mem_flatMap.mp hmem with ⟨p, hp, hcm⟩
    by_cases hr : readyState p.1 = ReadyState.opened
    · rcases List.mem_map.mp hcm with ⟨m2, hm2, heq⟩
      have hpc : p.1 = c := congrArg Prod.fst heq
      rw [← hpc]
      exact hr
    · simp [sendMessage, hr] at hcm
  · intro hmem
    rcases List.mem_map.mp hmem with ⟨w, hw, heq⟩
    rcases List.mem_filter.mp hw with ⟨-, hcond⟩
    have hwc : w = c := congrArg Prod.fst heq
    rw [← hwc]
    exact of_decide_eq_true hcond

/-- C10 witness: a closing socket receives nothing; a socket with output
pending is OPEN; concrete deliveries and broadcasts reach only OPEN
sockets. -/
theorem send_requires_open_socket_witness :
    sendMessage ReadyState.closing ServerMsg.filesChanged = [] ∧
    ReadyState.opened = ReadyState.opened ∧
    (fun _ : Nat => ReadyState.opened) 3 = ReadyState.opened ∧
    (fun _ : Nat => ReadyState.opened) 7 = ReadyState.opened :=
  ⟨(send_requires_open_socket (fun _ => ReadyState.opened) ReadyState.closing
      ServerMsg.filesChanged [] initState 0 ServerMsg.filesChanged).1 (by decide),
   (send_requires_open_socket (fun _ => ReadyState.opened) ReadyState.opened
      ServerMsg.filesChanged [] initState 0 ServerMsg.filesChanged).2.1 (by decide),
   (send_requires_open_socket (fun _ => ReadyState.opened) ReadyState.closing
      ServerMsg.filesChanged [(3, ServerMsg.output "x")] initState 3
      (ServerMsg.output "x")).2.2.1 (by decide),
   (send_requires_open_socket (fun _ => ReadyState.opened) ReadyState.closing
      ServerMsg.filesChanged []
      (handleUpgrade demoSessions 7 "/ws/sessions" initState).st 7
      ServerMsg.sessionsChanged).2.2.2 (by decide)⟩

/-- C1 amended witness: in the two-connection run, pty 1 (owned by
connection 2) is alive before and after connection 1 closes. -/
theorem pty_close_kills_own_only_witness :
    (1 ∈ (handleTerminalClose 1 "s1" 0 demoOpenSecond.st).ptyAlive ↔
      1 ∈ demoOpenSecond.st.ptyAlive) :=
  (pty_close_kills_own_only 1 "s1" 0 demoOpenSecond.st).1 1 (by decide)

/-- C4 witness: in the concrete one-connection run, closing the connection
kills pty 0, leaves the tmux session in place, and a new connection for
"s1" attaches to it. -/
theorem detach_not_kill_witness :
    0 ∉ (handleTerminalClose 1 "s1" 0 demoOpenFirst.st).ptyAlive ∧
    1 ∉ subscribersOf (handleTerminalClose 1 "s1" 0 demoOpenFirst.st) "s1" ∧
    (handleTerminalClose 1 "s1" 0 demoOpenFirst.st).tmuxSessions =
      demoOpenFirst.st.tmuxSessions ∧
    (handleTerminalConnection demoSessions 2 "s1"
      (handleTerminalClose 1 "s1" 0 demoOpenFirst.st)).attached = true ∧
    (handleTerminalConnection demoSessions 2 "s1"
      (handleTerminalClose 1 "s1" 0 demoOpenFirst.st)).st.tmuxSessions =
      demoOpenFirst.st.tmuxSessions :=
  detach_not_kill demoSessions 1 2 "s1" 0 demoOpenFirst.st (by decide) (by decide)

end WebDev
